import Mathlib

/-!
Verification of the zenodo-rdm administrative scripts.

This file gives a shallow embedding, in Lean, of the pure logic of the
image-conversion and record-maintenance scripts of the repository
(convert_to_ptif.py, create_pdf_multipage_ptif.py, regenerate_pdf_ptif.py,
fix_ptif_status.py, check_pdf_ptif_files.py, simple_pdf_viewer.py,
add_ptif_to_manifest.py and the IIIF smoke tests), and proves or refutes
the behavioural claims of the specification against it.

External effects (subprocess results, the filesystem, the ORM) are modelled
as explicit inputs and outputs: a subprocess outcome is an exception or an
exit code with captured stderr, the disk a list of (uri, size) pairs, a
record a structure of the fields the scripts read.  Printed diagnostics are
modelled as lists of message strings; purely informational messages are
elided and the remaining messages keep the meaning, not the byte-exact
formatting, of the Python f-strings.
-/

namespace ZenodoScripts

/-! ### Python dict primitives (string-keyed association lists)

The scripts only use `d.get(k, default)` and `d[k] = v` on dicts whose keys
are unique; we model them with first-occurrence association-list semantics.
-/

/-- Python `d.get(k, dflt)` on a string-valued dict. -/
def dictGet : List (String × String) → String → String → String
  | [], _, dflt => dflt
  | kv :: rest, k, dflt => if kv.1 = k then kv.2 else dictGet rest k dflt

/-- Python `d.get(k)` (no default: absent keys give `None`). -/
def dictGetOpt : List (String × String) → String → Option String
  | [], _ => none
  | kv :: rest, k => if kv.1 = k then some kv.2 else dictGetOpt rest k

/-- Python `d[k] = v`: replace the first binding of `k`, or append one. -/
def dictSet : List (String × String) → String → String → List (String × String)
  | [], k, v => [(k, v)]
  | kv :: rest, k, v => if kv.1 = k then (k, v) :: rest else kv :: dictSet rest k v

/-! ### Python string primitives

The string methods the scripts use, implemented over the character list of
a `String` (Python semantics on ASCII data).
-/

/-- Python `s.endswith(suf)`. -/
def py_endswith (s suf : String) : Bool := suf.data.isSuffixOf s.data

/-- Python `s.startswith(pre)`. -/
def py_startswith (s p : String) : Bool := p.data.isPrefixOf s.data

/-- Python `s.lower()`. -/
def py_lower (s : String) : String := String.mk (s.data.map Char.toLower)

/-- Python `s[a:b]` for nonnegative bounds. -/
def py_slice (s : String) (a b : Nat) : String :=
  String.mk ((s.data.drop a).take (b - a))

/-- Python `s[a:]` for a nonnegative bound. -/
def py_drop (s : String) (a : Nat) : String := String.mk (s.data.drop a)

/-- `str.split(sep)` splitting at every occurrence of one character. -/
def splitChars (c : Char) : List Char → List (List Char)
  | [] => [[]]
  | x :: xs =>
    let r := splitChars c xs
    if x = c then [] :: r
    else
      match r with
      | y :: ys => (x :: y) :: ys
      | [] => [[x]]

/-- Python `s.split(":")`. -/
def py_split_colon (s : String) : List String :=
  (splitChars ':' s.data).map String.mk

/-- The ASCII whitespace Python `strip()` removes. -/
def isPyWhitespace (c : Char) : Bool :=
  c = ' ' || c = '\t' || c = '\n' || c = '\r'

/-- Python `s.strip()`. -/
def pyStrip (s : String) : String :=
  String.mk (((s.data.dropWhile isPyWhitespace).reverse.dropWhile
    isPyWhitespace).reverse)

/-- Whether `needle` occurs as a contiguous run of `hay`: Python
`needle in hay` on strings. -/
def strContainsSub : List Char → List Char → Bool
  | [], needle => needle.isEmpty
  | c :: t, needle => needle.isPrefixOf (c :: t) || strContainsSub t needle

/-! ### convert_to_ptif.py, `convert_to_ptif` (lines 12-49)

The function checks that the input exists, spawns one `vips tiffsave`
subprocess, and returns a boolean.  The environment supplies what the
filesystem and the subprocess do: `runResult` is what `subprocess.run`
yields (an exception, or an exit code with captured stderr), `sizeResult`
what `os.path.getsize(output_file)` yields after a successful conversion.
-/

structure ConvertEnv where
  inputExists : Bool
  runResult : Except Unit (Int × String)
  sizeResult : Except Unit Nat

/-- The single vips command `convert_to_ptif` builds (lines 28-35). -/
def vips_tiffsave_cmd (inputFile outputFile : String) : List String :=
  ["vips", "tiffsave", inputFile, outputFile,
   "--compression=deflate", "--tile", "--pyramid",
   "--tile-width=256", "--tile-height=256"]

structure ConvertResult where
  vipsInvocations : List (List String)
  printed : List String
  returnValue : Bool

/-- `convert_to_ptif(input_file, output_file)` of convert_to_ptif.py. -/
def convert_to_ptif (env : ConvertEnv) (inputFile outputFile : String) :
    ConvertResult :=
  if env.inputExists = false then
    { vipsInvocations := []
      printed := ["Error: Input file " ++ inputFile ++ " does not exist."]
      returnValue := false }
  else
    let cmd := vips_tiffsave_cmd inputFile outputFile
    let converting := "Converting " ++ inputFile ++ " to " ++ outputFile ++ "..."
    match env.runResult with
    | .error _ =>
        { vipsInvocations := [cmd]
          printed := [converting, "Error during conversion:"]
          returnValue := false }
    | .ok (rc, stderrText) =>
        if rc ≠ 0 then
          { vipsInvocations := [cmd]
            printed := [converting, "Error: vips command failed: " ++ stderrText]
            returnValue := false }
        else
          match env.sizeResult with
          | .error _ =>
              { vipsInvocations := [cmd]
                printed := [converting,
                            "Successfully converted to " ++ outputFile,
                            "Error during conversion:"]
                returnValue := false }
          | .ok size =>
              { vipsInvocations := [cmd]
                printed := [converting,
                            "Successfully converted to " ++ outputFile,
                            "   File size: " ++ toString size ++ " bytes"]
                returnValue := true }

/-- A `ConvertEnv` in which everything succeeds. -/
def convertEnvOk : ConvertEnv :=
  { inputExists := true, runResult := .ok (0, ""), sizeResult := .ok 1000 }

/-- A `ConvertEnv` whose input file is missing. -/
def convertEnvMissing : ConvertEnv :=
  { inputExists := false, runResult := .ok (0, ""), sizeResult := .ok 1000 }

/-- A `ConvertEnv` whose vips process exits with code 1. -/
def convertEnvVipsFails : ConvertEnv :=
  { inputExists := true, runResult := .ok (1, "vips: boom"), sizeResult := .ok 0 }

/-! ### create_pdf_multipage_ptif.py, per-page conversion (lines 244-277)

For each processed page the script runs `vips pdfload` into a temporary
TIFF and, when that succeeds, `vips tiffsave` to the pyramidal output; on a
pdfload failure it continues with the next page without a second call.
-/

/-- `cmd1` of create_pdf_multipage_ptif.py (lines 245-250); `page` is the
0-indexed vips page number `page_num - 1`. -/
def vips_pdfload_page_cmd (uri temp : String) (dpi page : Nat) : List String :=
  ["vips", "pdfload", uri, temp,
   "--dpi=" ++ toString dpi, "--page=" ++ toString page]

/-- `cmd2` of create_pdf_multipage_ptif.py (lines 260-266). -/
def vips_tiffsave_page_cmd (temp out : String) (tileWidth tileHeight : Nat) :
    List String :=
  ["vips", "tiffsave", temp, out, "--tile", "--pyramid", "--compression=jpeg",
   "--tile-width=" ++ toString tileWidth,
   "--tile-height=" ++ toString tileHeight]

/-- The vips invocations of one page of `create_multipage_pdf_ptif_files`:
`pdfloadOk` tells whether the first command exited with code 0. -/
def multipage_page_vips_calls (pdfloadOk : Bool)
    (uri temp out : String) (dpi tw th page : Nat) : List (List String) :=
  if pdfloadOk then
    [vips_pdfload_page_cmd uri temp dpi page,
     vips_tiffsave_page_cmd temp out tw th]
  else
    [vips_pdfload_page_cmd uri temp dpi page]

/-! ### create_multipage_ptif.py (lines 90-106) and create_simple_ptif.py
(lines 75-92), per-PDF conversion

Both scripts convert the first PDF page with the same two commands, run
with `check=True`: a failing `pdfload` raises `CalledProcessError`, which
is caught, so the `tiffsave` only runs after a successful `pdfload`.
-/

/-- `cmd1` of create_multipage_ptif.py (lines 90-93) and
create_simple_ptif.py (lines 75-78): first page only. -/
def vips_pdfload_page0_cmd (pdfPath tempTiff : String) (dpi : Nat) :
    List String :=
  ["vips", "pdfload", pdfPath, tempTiff, "--dpi=" ++ toString dpi, "--page=0"]

/-- `cmd2` of create_multipage_ptif.py (lines 99-103) and
create_simple_ptif.py (lines 81-85). -/
def vips_tiffsave_256_cmd (tempTiff ptifPath : String) : List String :=
  ["vips", "tiffsave", tempTiff, ptifPath, "--tile", "--pyramid",
   "--compression=jpeg", "--tile-width=256", "--tile-height=256"]

/-- The vips invocations of one PDF conversion in create_multipage_ptif.py
and create_simple_ptif.py; `pdfloadOk` tells whether `cmd1` succeeded. -/
def two_step_page0_vips_calls (pdfloadOk : Bool)
    (pdfPath tempTiff ptifPath : String) (dpi : Nat) : List (List String) :=
  if pdfloadOk then
    [vips_pdfload_page0_cmd pdfPath tempTiff dpi,
     vips_tiffsave_256_cmd tempTiff ptifPath]
  else
    [vips_pdfload_page0_cmd pdfPath tempTiff dpi]

/-! ### create_pdf_ptif_manual.py, per-PDF conversion (lines 113-146)

Converts the whole PDF with a plain `pdfload` (no page flag) and then a
`tiffsave`; a nonzero `pdfload` exit continues without the second call.
-/

/-- `cmd1` of create_pdf_ptif_manual.py (lines 115-119). -/
def vips_pdfload_plain_cmd (uri tempTiff : String) (dpi : Nat) :
    List String :=
  ["vips", "pdfload", uri, tempTiff, "--dpi=" ++ toString dpi]

/-- `cmd2` of create_pdf_ptif_manual.py (lines 129-135). -/
def vips_tiffsave_cfg_cmd (tempTiff uri : String) (tw th : Nat) :
    List String :=
  ["vips", "tiffsave", tempTiff, uri, "--tile", "--pyramid",
   "--compression=jpeg", "--tile-width=" ++ toString tw,
   "--tile-height=" ++ toString th]

/-- The vips invocations of one conversion in `create_pdf_ptif_files` of
create_pdf_ptif_manual.py. -/
def manual_ptif_vips_calls (pdfloadOk : Bool) (uri tempTiff : String)
    (dpi tw th : Nat) : List (List String) :=
  if pdfloadOk then
    [vips_pdfload_plain_cmd uri tempTiff dpi,
     vips_tiffsave_cfg_cmd tempTiff uri tw th]
  else
    [vips_pdfload_plain_cmd uri tempTiff dpi]

/-! ### regenerate_pdf_ptif.py, per-PDF conversion (lines 122-135)

This script converts a PDF with a single `vips pdfload --layout=openslide`
invocation writing the PTIF directly.
-/

/-- The one command of regenerate_pdf_ptif.py (lines 123-128). -/
def vips_pdfload_openslide_cmd (uri out : String) (dpi : Nat) : List String :=
  ["vips", "pdfload", uri, out, "--dpi=" ++ toString dpi, "--layout=openslide"]

/-- The vips invocations of one conversion in `regenerate_pdf_ptif_files`. -/
def regenerate_conversion_vips_calls (uri out : String) (dpi : Nat) :
    List (List String) :=
  [vips_pdfload_openslide_cmd uri out dpi]

/-! ### create_pdf_multipage_ptif.py, `get_pdf_page_count` (lines 25-36) -/

/-- Whether `cs` (the characters after an optional sign) form a valid body
for Python `int()`: digits with single interior underscores. -/
def py_int_body_ok (cs : List Char) : Bool :=
  decide (cs ≠ []) &&
  cs.all (fun c => c.isDigit || c = '_') &&
  decide (cs.head? ≠ some '_') &&
  decide (cs.getLast? ≠ some '_') &&
  (cs.zip cs.tail).all (fun p => !(p.1 = '_' && p.2 = '_'))

/-- Numeric value of a digit list (most significant first). -/
def digitsVal (cs : List Char) : Nat :=
  cs.foldl (fun a c => a * 10 + (c.toNat - '0'.toNat)) 0

/-- Python `int(s)` on ASCII input: `none` when `int` raises `ValueError`. -/
def py_int (s : String) : Option Int :=
  let cs := (pyStrip s).data
  match cs with
  | '+' :: rest =>
      if py_int_body_ok rest then some (digitsVal (rest.filter (· ≠ '_')) : Nat) else none
  | '-' :: rest =>
      if py_int_body_ok rest then some (-(digitsVal (rest.filter (· ≠ '_')) : Nat)) else none
  | _ =>
      if py_int_body_ok cs then some (digitsVal (cs.filter (· ≠ '_')) : Nat) else none

/-- `int(line.split(":")[1].strip())` for a `Pages:` line of pdfinfo output
(the strip is folded into `py_int`, which trims first). -/
def pages_from_line (line : String) : Option Int :=
  match (py_split_colon line).get? 1 with
  | some part => py_int part
  | none => none

/-- `get_pdf_page_count(pdf_path)`: the pdfinfo subprocess outcome is the
input (an exception, or an exit code with the stdout split into lines). -/
def get_pdf_page_count (res : Except Unit (Int × List String)) : Int :=
  match res with
  | .error _ => 1
  | .ok (returncode, lines) =>
    if returncode = 0 then
      match lines.find? (fun l => py_startswith l "Pages:") with
      | some line =>
        match pages_from_line line with
        | some n => n
        | none => 1
      | none => 1
    else 1

/-! ### create_pdf_multipage_ptif.py, page cap (lines 230-236)

`max_pages_to_process = min(page_count, 10) if page_count > 20 else page_count`
followed by `for page_num in range(1, max_pages_to_process + 1)`.
-/

def max_pages_to_process (pageCount : Int) : Int :=
  if pageCount > 20 then min pageCount 10 else pageCount

/-- The pages `1 .. n` of a document with `n` pages. -/
def pdf_pages (n : Int) : List Int :=
  (List.range n.toNat).map (fun i => (i : Int) + 1)

/-- The page numbers the per-PDF loop of
`create_multipage_pdf_ptif_files` iterates over. -/
def processed_pages (pageCount : Int) : List Int :=
  pdf_pages (max_pages_to_process pageCount)

/-! ### Sharded PTIF storage paths

regenerate_pdf_ptif.py line 115 builds the output path from the record id;
add_ptif_to_manifest.py lines 24 and 50-62 probe two hard-coded directory
patterns for the record id "216".
-/

/-- `os.path.join(storage_path, "public", record_id[0:2], record_id[2:4],
"_", ptif_filename)` of regenerate_pdf_ptif.py (line 115). -/
def regenerate_ptif_output_path (storagePath recordId ptifFilename : String) :
    String :=
  storagePath ++ "/public/" ++ py_slice recordId 0 2 ++ "/" ++
    py_slice recordId 2 4 ++ "/_/" ++ ptifFilename

/-- `record_ids = ["216"]` of add_ptif_to_manifest.py (line 24). -/
def add_ptif_record_ids : List String := ["216"]

/-- The two `pattern_prefix` values probed by add_ptif_to_manifest.py
(line 52). -/
def add_ptif_shard_guesses : List String := ["21", "20"]

/-- `os.path.join(images_dir, pattern_prefix, "6_", "_")` of
add_ptif_to_manifest.py (line 53). -/
def add_ptif_dir_pattern (imagesDir guess : String) : String :=
  imagesDir ++ "/" ++ guess ++ "/6_/_"

/-- All directories in which add_ptif_to_manifest.py looks for PTIF files
(lines 50-62). -/
def add_ptif_probed_dirs (imagesDir : String) : List String :=
  add_ptif_shard_guesses.map (add_ptif_dir_pattern imagesDir)

/-- A short identifier tail right-padded with underscores to two
characters, as in the spec layout segment written `<2ch>_`. -/
def underscore_pad2 (s : String) : String :=
  let t := s.data.take 2
  String.mk (t ++ List.replicate (2 - t.length) '_')

/-- The per-record directory of the sharded layout the spec describes:
first segment the first two identifier characters, second the following
characters underscore-padded, then a `_` segment. -/
def sharded_layout_dir (imagesDir recordId : String) : String :=
  imagesDir ++ "/" ++ py_slice recordId 0 2 ++ "/" ++
    underscore_pad2 (py_drop recordId 2) ++ "/_"

/-! ### fix_ptif_status.py, `fix_ptif_file_status` (lines 43-116)

A record's media file is a key plus a `processor` dict; the loop over
`record.media_files.keys()` (lines 65-93) rewrites the status of PTIF files
stuck at "init".  The per-record work is wrapped in a `try` whose `except`
prints and moves on to the next record (lines 101-104); we model the
exception as raised by `RDMRecord.get_record` (line 48), the first
statement under the `try`.
-/

structure MediaFile where
  key : String
  processor : List (String × String)
deriving DecidableEq, Repr

/-- The body of the `for file_key in record.media_files.keys()` loop of
fix_ptif_status.py (lines 65-77) for one media file. -/
def fix_media_file (f : MediaFile) : MediaFile :=
  if py_endswith f.key ".ptif" then
    let status := dictGet f.processor "status" "unknown"
    if status = "init" then
      { f with processor := dictSet f.processor "status" "finished" }
    else f
  else f

/-- The media files of one record after `fix_ptif_file_status` visited it. -/
def fix_record_media_files (mfs : List MediaFile) : List MediaFile :=
  mfs.map fix_media_file

/-- A record as seen by `fix_ptif_file_status`: whether loading it raises,
the `media_files` attribute and flag, and the media files themselves. -/
structure FixRecord where
  getRaises : Bool
  hasMediaAttr : Bool
  mediaEnabled : Bool
  mediaFiles : List MediaFile
deriving DecidableEq, Repr

/-- The three per-record counters `records_with_media_files`,
`records_with_ptif`, `ptif_files_fixed` of fix_ptif_status.py. -/
structure FixTally where
  withMedia : Nat
  withPtif : Nat
  fixed : Nat
deriving DecidableEq, Repr

def FixTally.add (a b : FixTally) : FixTally :=
  ⟨a.withMedia + b.withMedia, a.withPtif + b.withPtif, a.fixed + b.fixed⟩

def zeroFixTally : FixTally := ⟨0, 0, 0⟩

/-- Media files whose key ends in `.ptif` and whose status is `init` — the
ones lines 73-77 flip to `finished`. -/
def ptif_init_count (mfs : List MediaFile) : Nat :=
  mfs.countP fun f =>
    py_endswith f.key ".ptif" && dictGet f.processor "status" "unknown" == "init"

/-- `has_ptif` of fix_ptif_status.py (lines 64-67). -/
def has_ptif (mfs : List MediaFile) : Bool :=
  mfs.any fun f => py_endswith f.key ".ptif"

/-- One iteration of the `for record_model in records` loop of
fix_ptif_status.py (lines 43-104): counter increments and diagnostics. -/
def fix_record_step (r : FixRecord) : FixTally × List String :=
  if r.getRaises then
    (zeroFixTally, ["Error processing record"])
  else if r.hasMediaAttr = false then
    (zeroFixTally, ["Record has no media_files attribute!"])
  else if r.mediaEnabled = false then
    (zeroFixTally, ["Media files are not enabled for this record."])
  else
    (⟨1, if has_ptif r.mediaFiles then 1 else 0, ptif_init_count r.mediaFiles⟩,
     [])

/-- The counters accumulated over a whole run of `fix_ptif_file_status`. -/
def fix_tallies (records : List FixRecord) : FixTally :=
  records.foldl (fun acc r => acc.add (fix_record_step r).1) zeroFixTally

/-- The diagnostics printed during a whole run. -/
def fix_prints (records : List FixRecord) : List String :=
  records.foldl (fun acc r => acc ++ (fix_record_step r).2) []

/-- The summary block printed at the end of `fix_ptif_file_status`
(lines 110-116): total records and the three counters — these four numbers
are all the summary reports. -/
structure FixSummary where
  totalRecords : Nat
  recordsWithMediaFiles : Nat
  recordsWithPtif : Nat
  ptifFilesFixed : Nat
deriving DecidableEq, Repr

/-- A whole run of `fix_ptif_file_status`: final summary and diagnostics. -/
def fix_ptif_file_status (records : List FixRecord) :
    FixSummary × List String :=
  let t := fix_tallies records
  (⟨records.length, t.withMedia, t.withPtif, t.fixed⟩, fix_prints records)

/-- How many records raised during a run (the failures the loop caught). -/
def fix_failures (records : List FixRecord) : Nat :=
  records.countP (·.getRaises)

/-- A record whose processing raises an exception. -/
def recRaising : FixRecord := ⟨true, true, true, []⟩

/-- A record without the `media_files` attribute (processed cleanly). -/
def recNoMediaAttr : FixRecord := ⟨false, false, false, []⟩

/-! ### A minimal JSON value type

Enough of JSON for the manifests the scripts build and the smoke-test
assertions: strings, integers, arrays and objects.
-/

inductive JVal where
  | str : String → JVal
  | num : Int → JVal
  | arr : List JVal → JVal
  | obj : List (String × JVal) → JVal
deriving Repr

/-- Python `m[k]` / `k in m` on a JSON object body. -/
def jlookup (fields : List (String × JVal)) (k : String) : Option JVal :=
  match fields with
  | [] => none
  | kv :: rest => if kv.1 = k then some kv.2 else jlookup rest k

/-- Python `needle in v` on an arbitrary JSON value: key membership on a
dict, element equality on a list, substring on a string; on a number
`in` raises a `TypeError`, which the test prints as a failure. -/
def py_in_jval (needle : String) (v : JVal) : Bool :=
  match v with
  | .obj fields => (jlookup fields needle).isSome
  | .arr xs =>
    xs.any fun x =>
      match x with
      | .str s => s == needle
      | _ => false
  | .str s => strContainsSub s.data needle.data
  | .num _ => false

/-! ### site/tests/iiif/test_iiif_manifest_basic.py, `test_manifest_endpoint`

The test walks the manifest JSON with a chain of asserts (lines 15-62).
We model the printed outcome as a single boolean: an assert failure and an
uncaught `TypeError`/`KeyError` (indexing a value of the wrong shape) both
print a failure, so both map to `false`.
-/

/-- The service asserts (test lines 59-62): three Python `in` tests on
the `service` value, which is never indexed afterwards, so a list or
string containing the three names also passes. -/
def service_checks (service : JVal) : Bool :=
  py_in_jval "@context" service &&
  py_in_jval "@id" service &&
  py_in_jval "profile" service

/-- The image-resource asserts (test lines 54-62): a non-dict `resource`
fails because `resource["service"]` raises a `TypeError`. -/
def resource_checks (resource : List (String × JVal)) : Bool :=
  (jlookup resource "@id").isSome &&
  (match jlookup resource "service" with
   | some service => service_checks service
   | none => false)

/-- The image-annotation asserts (test lines 46-62). -/
def image_checks (image : List (String × JVal)) : Bool :=
  (jlookup image "@type").isSome &&
  (match jlookup image "@type" with
   | some (.str s) => s == "oa:Annotation"
   | _ => false) &&
  (jlookup image "motivation").isSome &&
  (match jlookup image "resource" with
   | some (.obj resource) => resource_checks resource
   | _ => false)

/-- The canvas asserts (test lines 36-62). -/
def canvas_checks (canvas : List (String × JVal)) : Bool :=
  (jlookup canvas "@id").isSome &&
  (jlookup canvas "@type").isSome &&
  (match jlookup canvas "@type" with
   | some (.str s) => s == "sc:Canvas"
   | _ => false) &&
  (jlookup canvas "label").isSome &&
  (jlookup canvas "width").isSome &&
  (jlookup canvas "height").isSome &&
  (match jlookup canvas "images" with
   | some (.arr images) =>
     decide (images.length > 0) &&
     (match images.head? with
      | some (.obj image) => image_checks image
      | _ => false)
   | _ => false)

/-- The asserts on `sequence = manifest["sequences"][0]`
(test lines 32-43). -/
def sequence_checks (sequence : List (String × JVal)) : Bool :=
  match jlookup sequence "canvases" with
  | some (.arr canvases) =>
    decide (canvases.length > 0) &&
    (match canvases.head? with
     | some (.obj canvas) => canvas_checks canvas
     | _ => false)
  | _ => false

/-- The pass/fail outcome of `test_manifest_endpoint` as a function of the
response status code and the manifest JSON body (test lines 15-62). -/
def test_manifest_outcome (status : Nat) (manifest : List (String × JVal)) :
    Bool :=
  (status == 200) &&
  (jlookup manifest "@context").isSome &&
  (jlookup manifest "@type").isSome &&
  (match jlookup manifest "@type" with
   | some (.str s) => s == "sc:Manifest"
   | _ => false) &&
  (jlookup manifest "label").isSome &&
  (match jlookup manifest "sequences" with
   | some (.arr seqs) =>
     decide (seqs.length > 0) &&
     (match seqs.head? with
      | some (.obj sequence) => sequence_checks sequence
      | _ => false)
   | _ => false)

/-! #### The observations the manifest test makes

For the corrected hyperproperty: the outcome is a function of the status
code, the presence of each checked key, the string values of the three
compared `@type` fields, the shape and nonemptiness of the three nested
containers, and the outcomes of the three Python membership tests on the
`service` value.  `manifestObs` records exactly these observations.
-/

structure ServiceObs where
  hasContext : Bool
  hasId : Bool
  hasProfile : Bool
deriving DecidableEq, Repr

structure ResourceObs where
  hasId : Bool
  service : Option ServiceObs
deriving DecidableEq, Repr

structure ImageObs where
  hasType : Bool
  typeStr : Option String
  hasMotivation : Bool
  resource : Option ResourceObs
deriving DecidableEq, Repr

structure CanvasObs where
  hasId : Bool
  hasType : Bool
  typeStr : Option String
  hasLabel : Bool
  hasWidth : Bool
  hasHeight : Bool
  imagesLen : Option Nat
  firstImage : Option ImageObs
deriving DecidableEq, Repr

structure SequenceObs where
  canvasesLen : Option Nat
  firstCanvas : Option CanvasObs
deriving DecidableEq, Repr

structure ManifestObs where
  hasContext : Bool
  hasType : Bool
  typeStr : Option String
  hasLabel : Bool
  sequencesLen : Option Nat
  firstSequence : Option SequenceObs
deriving DecidableEq, Repr

def serviceObs (service : JVal) : ServiceObs :=
  ⟨py_in_jval "@context" service, py_in_jval "@id" service,
   py_in_jval "profile" service⟩

def resourceObs (resource : List (String × JVal)) : ResourceObs :=
  ⟨(jlookup resource "@id").isSome,
   match jlookup resource "service" with
   | some service => some (serviceObs service)
   | none => none⟩

def imageObs (image : List (String × JVal)) : ImageObs :=
  ⟨(jlookup image "@type").isSome,
   (match jlookup image "@type" with
    | some (.str s) => some s
    | _ => none),
   (jlookup image "motivation").isSome,
   match jlookup image "resource" with
   | some (.obj resource) => some (resourceObs resource)
   | _ => none⟩

def canvasObs (canvas : List (String × JVal)) : CanvasObs :=
  ⟨(jlookup canvas "@id").isSome,
   (jlookup canvas "@type").isSome,
   (match jlookup canvas "@type" with
    | some (.str s) => some s
    | _ => none),
   (jlookup canvas "label").isSome,
   (jlookup canvas "width").isSome,
   (jlookup canvas "height").isSome,
   (match jlookup canvas "images" with
    | some (.arr images) => some images.length
    | _ => none),
   match jlookup canvas "images" with
   | some (.arr images) =>
     match images.head? with
     | some (.obj image) => some (imageObs image)
     | _ => none
   | _ => none⟩

def sequenceObs (sequence : List (String × JVal)) : SequenceObs :=
  ⟨(match jlookup sequence "canvases" with
    | some (.arr canvases) => some canvases.length
    | _ => none),
   match jlookup sequence "canvases" with
   | some (.arr canvases) =>
     match canvases.head? with
     | some (.obj canvas) => some (canvasObs canvas)
     | _ => none
   | _ => none⟩

def manifestObs (manifest : List (String × JVal)) : ManifestObs :=
  ⟨(jlookup manifest "@context").isSome,
   (jlookup manifest "@type").isSome,
   (match jlookup manifest "@type" with
    | some (.str s) => some s
    | _ => none),
   (jlookup manifest "label").isSome,
   (match jlookup manifest "sequences" with
    | some (.arr seqs) => some seqs.length
    | _ => none),
   match jlookup manifest "sequences" with
   | some (.arr seqs) =>
     match seqs.head? with
     | some (.obj sequence) => some (sequenceObs sequence)
     | _ => none
   | _ => none⟩

/-! #### Key paths of a JSON value

The set of object keys present in a response body, as nested key paths:
what the spec calls "the presence of keys in the response JSON".
-/

mutual

def jval_key_paths : JVal → List (List String)
  | .str _ => []
  | .num _ => []
  | .arr xs => jarr_key_paths xs
  | .obj fields => jobj_key_paths fields

def jarr_key_paths : List JVal → List (List String)
  | [] => []
  | x :: xs => jval_key_paths x ++ jarr_key_paths xs

def jobj_key_paths : List (String × JVal) → List (List String)
  | [] => []
  | (k, v) :: rest =>
    [k] :: (jval_key_paths v).map (fun p => k :: p) ++ jobj_key_paths rest

end

/-! ### simple_pdf_viewer.py, `create_manifest` (lines 46-126)

The input is the list of discovered PTIF files (dicts with `filename`,
`path`, `dir_pattern` built by `find_ptif_files`); per file the script asks
pyvips for the dimensions, and skips the file (printing an error) when that
raises.  `dims` is the outcome of `pyvips.Image.new_from_file`: the width
and height, or `none` when it raised.  The global `RECORD_ID` and the
`time.strftime` date are parameters.
-/

structure PtifFile where
  filename : String
  dirPattern : String
  path : String
  dims : Option (Nat × Nat)
deriving Repr

def canvas_id_for (recordId filename : String) : String :=
  "https://127.0.0.1:5000/api/iiif/record:" ++ recordId ++ "/canvas/" ++ filename

def iiif_base_url_for (dirPattern filename : String) : String :=
  "https://127.0.0.1:5000/api/iiif/" ++ dirPattern ++ "/6_/_/" ++ filename

/-- The canvas dict built for one PTIF file whose dimensions were read as
`w` × `h` (simple_pdf_viewer.py lines 87-117). -/
def canvas_for (recordId : String) (f : PtifFile) (w h : Nat) : JVal :=
  .obj [("@id", .str (canvas_id_for recordId f.filename)),
        ("@type", .str "sc:Canvas"),
        ("label", .str ("Page from " ++ f.filename)),
        ("width", .num (w : Int)),
        ("height", .num (h : Int)),
        ("images", .arr [.obj [
          ("@id", .str (canvas_id_for recordId f.filename ++ "/image")),
          ("@type", .str "oa:Annotation"),
          ("motivation", .str "sc:painting"),
          ("resource", .obj [
            ("@id", .str (iiif_base_url_for f.dirPattern f.filename ++
                          "/full/full/0/default.jpg")),
            ("@type", .str "dctypes:Image"),
            ("format", .str "image/jpeg"),
            ("width", .num (w : Int)),
            ("height", .num (h : Int)),
            ("service", .obj [
              ("@id", .str (iiif_base_url_for f.dirPattern f.filename)),
              ("@context", .str "http://iiif.io/api/image/2/context.json"),
              ("profile", .str "http://iiif.io/api/image/2/level1.json")])]),
          ("on", .str (canvas_id_for recordId f.filename))]])]

/-- The canvases loop (lines 74-121): one canvas per file whose dimensions
pyvips could read, skipping the files where it raised. -/
def manifest_canvases (recordId : String) (files : List PtifFile) :
    List JVal :=
  files.filterMap fun f =>
    f.dims.map fun wh => canvas_for recordId f wh.1 wh.2

/-- `create_manifest(ptif_files)` (lines 46-126): the base structure of
lines 49-71 with `sequences[0]["canvases"]` replaced by the built list
(line 124). -/
def create_manifest (recordId date : String) (files : List PtifFile) : JVal :=
  .obj [("@context", .str "http://iiif.io/api/presentation/2/context.json"),
        ("@type", .str "sc:Manifest"),
        ("@id", .str ("https://127.0.0.1:5000/api/iiif/record:" ++ recordId ++
                      "/manifest")),
        ("label", .str "PDF Document"),
        ("metadata", .arr [.obj [("label", .str "Publication Date"),
                                 ("value", .str date)]]),
        ("description", .str "Manifest generated for PDF document"),
        ("sequences", .arr [.obj [
          ("@id", .str ("https://127.0.0.1:5000/api/iiif/record:" ++ recordId ++
                        "/sequence/default")),
          ("@type", .str "sc:Sequence"),
          ("label", .str "Current Page Order"),
          ("viewingDirection", .str "left-to-right"),
          ("viewingHint", .str "individuals"),
          ("canvases", .arr (manifest_canvases recordId files))]])]

/-- The `sequences` array of a manifest, when it is one. -/
def manifest_sequences (m : JVal) : Option (List JVal) :=
  match m with
  | .obj fields =>
    match jlookup fields "sequences" with
    | some (.arr s) => some s
    | _ => none
  | _ => none

/-- The `canvases` array of a sequence object, when it is one. -/
def sequence_canvases (s : JVal) : Option (List JVal) :=
  match s with
  | .obj fields =>
    match jlookup fields "canvases" with
    | some (.arr c) => some c
    | _ => none
  | _ => none

/-- The `width`/`height` pair of a canvas object, when both are numbers. -/
def canvas_dims (c : JVal) : Option (Int × Int) :=
  match c with
  | .obj fields =>
    match jlookup fields "width", jlookup fields "height" with
    | some (.num w), some (.num h) => some (w, h)
    | _, _ => none
  | _ => none

/-- The files of `create_manifest`'s input whose dimensions the image
library could read, with those dimensions. -/
def readable_files (files : List PtifFile) : List (PtifFile × Nat × Nat) :=
  files.filterMap fun f => f.dims.map fun wh => (f, wh.1, wh.2)

/-! ### check_pdf_ptif_files.py, `check_pdf_files` (lines 25-118)

The script walks all records and prints findings.  The world (the records
and the disk) is threaded explicitly through the embedding, mirroring the
source statement by statement: the source performs reads only, so every
branch passes the world through.  As above, the per-record exception point
is modelled at `RDMRecord.get_record` (line 51).
-/

/-- A media-file entry as `check_pdf_files` reads it: the `processor` dict
(`none` when the attribute is missing or the dict falsy, line 74) and the
file uri (`none` when the `file` attribute is missing or falsy, line 86). -/
structure MediaEntry where
  key : String
  processor : Option (List (String × String))
  fileUri : Option String
deriving DecidableEq, Repr

/-- Line 74: `ptif_file.processor.get('status') if hasattr(...) and
ptif_file.processor else 'unknown'`. -/
def check_status (processor : Option (List (String × String))) :
    Option String :=
  match processor with
  | some d => if d.isEmpty then some "unknown" else dictGetOpt d "status"
  | none => some "unknown"

structure CheckRecord where
  getRaises : Bool
  hasMediaAttr : Bool
  mediaEnabled : Bool
  files : List String
  mediaFiles : List MediaEntry
deriving DecidableEq, Repr

/-- The filesystem: a list of (uri, size) pairs. -/
structure Disk where
  entries : List (String × Nat)
deriving DecidableEq, Repr

/-- `os.path.exists(uri)` (line 90). -/
def disk_exists (d : Disk) (uri : String) : Bool :=
  d.entries.any fun e => e.1 = uri

structure CheckWorld where
  records : List CheckRecord
  disk : Disk
deriving DecidableEq, Repr

/-- The eight counters of the check summary (lines 108-116). -/
structure CheckStats where
  totalRecords : Nat
  recordsWithMediaFiles : Nat
  pdfRecords : Nat
  pdfWithPtif : Nat
  ptifInitStatus : Nat
  ptifProcessingStatus : Nat
  ptifFinishedStatus : Nat
  pdfWithoutPtif : Nat
deriving DecidableEq, Repr

def CheckStats.add (a b : CheckStats) : CheckStats :=
  ⟨a.totalRecords + b.totalRecords,
   a.recordsWithMediaFiles + b.recordsWithMediaFiles,
   a.pdfRecords + b.pdfRecords,
   a.pdfWithPtif + b.pdfWithPtif,
   a.ptifInitStatus + b.ptifInitStatus,
   a.ptifProcessingStatus + b.ptifProcessingStatus,
   a.ptifFinishedStatus + b.ptifFinishedStatus,
   a.pdfWithoutPtif + b.pdfWithoutPtif⟩

def zeroCheckStats : CheckStats := ⟨0, 0, 0, 0, 0, 0, 0, 0⟩

/-- `ptif_filename in record.media_files` plus the lookup (lines 70-73). -/
def find_media (mfs : List MediaEntry) (k : String) : Option MediaEntry :=
  mfs.find? fun m => m.key = k

/-- The per-PDF body of the `for filename in record.files` loop of
`check_pdf_files` (lines 64-98). -/
def check_pdf_file (w : CheckWorld) (r : CheckRecord) (filename : String) :
    CheckWorld × CheckStats × List String :=
  let ptifName := filename ++ ".ptif"
  match find_media r.mediaFiles ptifName with
  | some entry =>
    let status := check_status entry.processor
    let stats : CheckStats :=
      { zeroCheckStats with
        pdfRecords := 1
        pdfWithPtif := 1
        ptifInitStatus := if status = some "init" then 1 else 0
        ptifProcessingStatus := if status = some "processing" then 1 else 0
        ptifFinishedStatus := if status = some "finished" then 1 else 0 }
    match entry.fileUri with
    | some uri =>
      if disk_exists w.disk uri then
        (w, stats, ["PTIF file exists on disk"])
      else
        (w, stats, ["WARNING: PTIF file does not exist on disk!"])
    | none => (w, stats, [])
  | none =>
    (w, { zeroCheckStats with pdfRecords := 1, pdfWithoutPtif := 1 },
     ["No PTIF file found for PDF " ++ filename])

/-- One iteration of the record loop of `check_pdf_files` (lines 47-104). -/
def check_record (w : CheckWorld) (r : CheckRecord) :
    CheckWorld × CheckStats × List String :=
  if r.getRaises then
    (w, zeroCheckStats, ["Error processing record"])
  else if r.hasMediaAttr = false || r.mediaEnabled = false then
    (w, zeroCheckStats, ["Media files not enabled"])
  else
    r.files.foldl
      (fun acc filename =>
        if py_endswith (py_lower filename) ".pdf" then
          let step := check_pdf_file acc.1 r filename
          (step.1, acc.2.1.add step.2.1, acc.2.2 ++ step.2.2)
        else acc)
      (w, { zeroCheckStats with recordsWithMediaFiles := 1 }, [])

/-- `check_pdf_files()`: the whole run over the world's records. -/
def check_pdf_files (w : CheckWorld) : CheckWorld × CheckStats × List String :=
  let folded :=
    w.records.foldl
      (fun acc r =>
        let step := check_record acc.1 r
        (step.1, acc.2.1.add step.2.1, acc.2.2 ++ step.2.2))
      (w, zeroCheckStats, [])
  (folded.1,
   { folded.2.1 with totalRecords := w.records.length },
   folded.2.2)

/-! ### site/tests/iiif/test_core_services.py, `test_iipserver_running`

Lines 14-26: any response at all (`if response.status_code:`) prints a
pass; only a requests exception prints a failure.  The input is the
request outcome: an exception or the status code.
-/

def test_iipserver_outcome (res : Except Unit Nat) : Bool :=
  match res with
  | .error _ => false
  | .ok status => status != 0

/-! ### Concrete JSON bodies for the manifest smoke test -/

def serviceEx : List (String × JVal) :=
  [("@context", .str "http://iiif.io/api/image/2/context.json"),
   ("@id", .str "https://example.org/iiif/a.ptif"),
   ("profile", .str "http://iiif.io/api/image/2/level1.json")]

def resourceEx : List (String × JVal) :=
  [("@id", .str "https://example.org/iiif/a.ptif/full/full/0/default.jpg"),
   ("service", .obj serviceEx)]

def imageEx : List (String × JVal) :=
  [("@type", .str "oa:Annotation"),
   ("motivation", .str "sc:painting"),
   ("resource", .obj resourceEx)]

def canvasEx : List (String × JVal) :=
  [("@id", .str "https://example.org/canvas/1"),
   ("@type", .str "sc:Canvas"),
   ("label", .str "Page 1"),
   ("width", .num 100),
   ("height", .num 200),
   ("images", .arr [.obj imageEx])]

def sequenceEx : List (String × JVal) :=
  [("canvases", .arr [.obj canvasEx])]

/-- A manifest body passing every assertion of the test. -/
def manifestPassing : List (String × JVal) :=
  [("@context", .str "http://iiif.io/api/presentation/2/context.json"),
   ("@type", .str "sc:Manifest"),
   ("label", .str "PDF Document"),
   ("sequences", .arr [.obj sequenceEx])]

/-- The same body with only the top-level `@type` string changed: the same
status code and the same keys present, a different outcome. -/
def manifestRetyped : List (String × JVal) :=
  [("@context", .str "http://iiif.io/api/presentation/2/context.json"),
   ("@type", .str "sc:Other"),
   ("label", .str "PDF Document"),
   ("sequences", .arr [.obj sequenceEx])]

/-- The same body with only the (uncompared) `label` string changed: the
observations the test makes are identical. -/
def manifestAltLabel : List (String × JVal) :=
  [("@context", .str "http://iiif.io/api/presentation/2/context.json"),
   ("@type", .str "sc:Manifest"),
   ("label", .str "Another Document"),
   ("sequences", .arr [.obj sequenceEx])]

/-! ### The obs-level check functions

`test_manifest_outcome` factors through `manifestObs`: the functions below
compute the outcome from the observations alone.
-/

def service_checks_obs (o : ServiceObs) : Bool :=
  o.hasContext && o.hasId && o.hasProfile

def resource_checks_obs (o : ResourceObs) : Bool :=
  o.hasId &&
  (match o.service with
   | some so => service_checks_obs so
   | none => false)

def image_checks_obs (o : ImageObs) : Bool :=
  o.hasType &&
  (match o.typeStr with
   | some s => s == "oa:Annotation"
   | none => false) &&
  o.hasMotivation &&
  (match o.resource with
   | some ro => resource_checks_obs ro
   | none => false)

def canvas_checks_obs (o : CanvasObs) : Bool :=
  o.hasId && o.hasType &&
  (match o.typeStr with
   | some s => s == "sc:Canvas"
   | none => false) &&
  o.hasLabel && o.hasWidth && o.hasHeight &&
  (match o.imagesLen with
   | some n =>
     decide (n > 0) &&
     (match o.firstImage with
      | some io => image_checks_obs io
      | none => false)
   | none => false)

def sequence_checks_obs (o : SequenceObs) : Bool :=
  match o.canvasesLen with
  | some n =>
    decide (n > 0) &&
    (match o.firstCanvas with
     | some co => canvas_checks_obs co
     | none => false)
  | none => false

def manifest_outcome_of_obs (status : Nat) (o : ManifestObs) : Bool :=
  (status == 200) && o.hasContext && o.hasType &&
  (match o.typeStr with
   | some s => s == "sc:Manifest"
   | none => false) &&
  o.hasLabel &&
  (match o.sequencesLen with
   | some n =>
     decide (n > 0) &&
     (match o.firstSequence with
      | some so => sequence_checks_obs so
      | none => false)
   | none => false)

/-! ### Concrete inputs used as witnesses -/

/-- A world with one record holding a PDF whose registered PTIF uri is
absent from the (empty) disk. -/
def checkWorldEx : CheckWorld :=
  ⟨[⟨false, true, true, ["doc.pdf"],
     [⟨"doc.pdf.ptif", some [("status", "finished")],
       some "/data/doc.ptif"⟩]⟩],
   ⟨[]⟩⟩

def checkRecEx : CheckRecord :=
  ⟨false, true, true, ["doc.pdf"],
   [⟨"doc.pdf.ptif", some [("status", "finished")], some "/data/doc.ptif"⟩]⟩

/-! ## Helper lemmas -/

theorem dictGet_dictSet_self (d : List (String × String)) (k v dflt : String) :
    dictGet (dictSet d k v) k dflt = v := by
  induction d with
  | nil => simp [dictSet, dictGet]
  | cons kv rest ih =>
    by_cases h : kv.1 = k
    · simp [dictSet, dictGet, h]
    · simp [dictSet, dictGet, h, ih]

/-! ## C3: fix_ptif_file_status flips exactly the `.ptif` files at `init` -/

/-- C3.  `fix_ptif_file_status` sets the processor status to `finished`
for exactly the media files whose key ends in `.ptif` and whose status is
`init`; every other media file (status `processing`, `finished`, `failed`
or anything else, or a key not ending in `.ptif`) is left unchanged. -/
theorem fix_ptif_status_sets_exactly_init_ptifs :
    (∀ (mfs : List MediaFile) (i : Nat),
       (fix_record_media_files mfs)[i]? = mfs[i]?.map fix_media_file) ∧
    (∀ f : MediaFile,
       (fix_media_file f).key = f.key ∧
       dictGet (fix_media_file f).processor "status" "unknown" =
         (if py_endswith f.key ".ptif" = true ∧
             dictGet f.processor "status" "unknown" = "init"
          then "finished"
          else dictGet f.processor "status" "unknown") ∧
       (¬ (py_endswith f.key ".ptif" = true ∧
           dictGet f.processor "status" "unknown" = "init") →
          fix_media_file f = f)) := by
  constructor
  · intro mfs i
    simp [fix_record_media_files]
  · intro f
    refine ⟨?_, ?_, ?_⟩
    · cases h1 : py_endswith f.key ".ptif" with
      | false => simp [fix_media_file, h1]
      | true =>
        by_cases h2 : dictGet f.processor "status" "unknown" = "init" <;>
          simp [fix_media_file, h1, h2]
    · cases h1 : py_endswith f.key ".ptif" with
      | false => simp [fix_media_file, h1]
      | true =>
        by_cases h2 : dictGet f.processor "status" "unknown" = "init" <;>
          simp [fix_media_file, h1, h2, dictGet_dictSet_self]
    · intro h
      cases h1 : py_endswith f.key ".ptif" with
      | false => simp [fix_media_file, h1]
      | true =>
        have h2 : ¬ dictGet f.processor "status" "unknown" = "init" := by
          intro h2; exact h ⟨h1, h2⟩
        simp [fix_media_file, h1, h2]

/-- Witness for the hypotheses of C3's theorem at concrete media files. -/
theorem fix_ptif_status_sets_exactly_init_ptifs_witness :
    dictGet (fix_media_file ⟨"a.pdf.ptif", [("status", "init")]⟩).processor
        "status" "unknown" = "finished" ∧
    fix_media_file ⟨"a.pdf", [("status", "init")]⟩ =
      ⟨"a.pdf", [("status", "init")]⟩ := by
  constructor
  · have h := (fix_ptif_status_sets_exactly_init_ptifs.2
      ⟨"a.pdf.ptif", [("status", "init")]⟩).2.1
    rw [h]; decide
  · exact (fix_ptif_status_sets_exactly_init_ptifs.2
      ⟨"a.pdf", [("status", "init")]⟩).2.2 (by decide)

/-! ## C6: convert_to_ptif error handling -/

/-- C6.  `convert_to_ptif` returns `False` without spawning a process when
the input file is missing; on a nonzero vips exit code it prints the
captured stderr and returns `False`; and it returns `True` only when the
vips process exited with code zero. -/
theorem convert_to_ptif_error_handling (env : ConvertEnv) (i o : String) :
    (env.inputExists = false →
       (convert_to_ptif env i o).vipsInvocations = [] ∧
       (convert_to_ptif env i o).returnValue = false) ∧
    (∀ (rc : Int) (st : String),
       env.inputExists = true → env.runResult = Except.ok (rc, st) → rc ≠ 0 →
       ("Error: vips command failed: " ++ st) ∈
         (convert_to_ptif env i o).printed ∧
       (convert_to_ptif env i o).returnValue = false) ∧
    ((convert_to_ptif env i o).returnValue = true →
       ∃ st, env.runResult = Except.ok (0, st)) := by
  obtain ⟨ie, rr, sr⟩ := env
  refine ⟨?_, ?_, ?_⟩
  · intro h
    simp only at h
    subst h
    simp [convert_to_ptif]
  · intro rc st hie hrun hrc
    simp only at hie hrun
    subst hie
    subst hrun
    simp [convert_to_ptif, hrc]
  · intro h
    cases ie with
    | false => simp [convert_to_ptif] at h
    | true =>
      cases rr with
      | error e => simp [convert_to_ptif] at h
      | ok p =>
        obtain ⟨rc, st⟩ := p
        by_cases hrc : rc = 0
        · exact ⟨st, by rw [hrc]⟩
        · simp [convert_to_ptif, hrc] at h

/-- Witness for C6's theorem: a missing input and a failing vips run. -/
theorem convert_to_ptif_error_handling_witness :
    ((convert_to_ptif convertEnvMissing "a.jpg" "a.ptif").vipsInvocations = [] ∧
     (convert_to_ptif convertEnvMissing "a.jpg" "a.ptif").returnValue = false) ∧
    ("Error: vips command failed: " ++ "vips: boom") ∈
      (convert_to_ptif convertEnvVipsFails "a.jpg" "a.ptif").printed :=
  ⟨(convert_to_ptif_error_handling convertEnvMissing "a.jpg" "a.ptif").1 rfl,
   ((convert_to_ptif_error_handling convertEnvVipsFails "a.jpg" "a.ptif").2.1
      1 "vips: boom" rfl rfl (by decide)).1⟩

/-! ## C1: the vips invocation sequences differ between scripts -/

/-- C1 counterexample.  The conversion path of convert_to_ptif.py spawns
exactly one vips invocation, a `tiffsave` with no preceding `pdfload`:
not the claimed fixed two-invocation sequence. -/
theorem convert_to_ptif_is_a_single_tiffsave :
    (convert_to_ptif convertEnvOk "in.jpg" "out.ptif").vipsInvocations =
      [vips_tiffsave_cmd "in.jpg" "out.ptif"] ∧
    (convert_to_ptif convertEnvOk "in.jpg" "out.ptif").vipsInvocations.length
      = 1 ∧
    ((convert_to_ptif convertEnvOk "in.jpg" "out.ptif").vipsInvocations.map
      fun c => c.get? 1) = [some "tiffsave"] := by
  refine ⟨rfl, by decide, by decide⟩

/-- C1 as amended.  The per-page or per-file conversions of
create_pdf_multipage_ptif.py, create_multipage_ptif.py,
create_simple_ptif.py and create_pdf_ptif_manual.py are each the fixed
two-invocation sequence `vips pdfload` then `vips tiffsave`, in that
order; but not every conversion path in every script is:
regenerate_pdf_ptif.py converts with a single
`vips pdfload --layout=openslide` invocation and convert_to_ptif.py with
a single `vips tiffsave` invocation. -/
theorem vips_invocation_sequences_by_script :
    (∀ uri temp out dpi tw th page,
       multipage_page_vips_calls true uri temp out dpi tw th page =
         [vips_pdfload_page_cmd uri temp dpi page,
          vips_tiffsave_page_cmd temp out tw th]) ∧
    (∀ ok uri temp out dpi tw th page,
       (multipage_page_vips_calls ok uri temp out dpi tw th page).head? =
         some (vips_pdfload_page_cmd uri temp dpi page)) ∧
    (∀ pdfPath tempTiff ptifPath dpi,
       two_step_page0_vips_calls true pdfPath tempTiff ptifPath dpi =
         [vips_pdfload_page0_cmd pdfPath tempTiff dpi,
          vips_tiffsave_256_cmd tempTiff ptifPath]) ∧
    (∀ ok pdfPath tempTiff ptifPath dpi,
       (two_step_page0_vips_calls ok pdfPath tempTiff ptifPath dpi).head? =
         some (vips_pdfload_page0_cmd pdfPath tempTiff dpi)) ∧
    (∀ uri tempTiff dpi tw th,
       manual_ptif_vips_calls true uri tempTiff dpi tw th =
         [vips_pdfload_plain_cmd uri tempTiff dpi,
          vips_tiffsave_cfg_cmd tempTiff uri tw th]) ∧
    (∀ ok uri tempTiff dpi tw th,
       (manual_ptif_vips_calls ok uri tempTiff dpi tw th).head? =
         some (vips_pdfload_plain_cmd uri tempTiff dpi)) ∧
    (∀ uri out dpi,
       regenerate_conversion_vips_calls uri out dpi =
         [vips_pdfload_openslide_cmd uri out dpi]) ∧
    (∀ (env : ConvertEnv) (i o : String), env.inputExists = true →
       (convert_to_ptif env i o).vipsInvocations = [vips_tiffsave_cmd i o]) := by
  refine ⟨?_, ?_, ?_, ?_, ?_, ?_, ?_, ?_⟩
  · intro uri temp out dpi tw th page
    rfl
  · intro ok uri temp out dpi tw th page
    cases ok <;> rfl
  · intro pdfPath tempTiff ptifPath dpi
    rfl
  · intro ok pdfPath tempTiff ptifPath dpi
    cases ok <;> rfl
  · intro uri tempTiff dpi tw th
    rfl
  · intro ok uri tempTiff dpi tw th
    cases ok <;> rfl
  · intro uri out dpi
    rfl
  · intro env i o h
    obtain ⟨ie, rr, sr⟩ := env
    simp only at h
    subst h
    cases rr with
    | error e => rfl
    | ok p =>
      obtain ⟨rc, st⟩ := p
      by_cases hrc : rc = 0
      · subst hrc
        cases sr <;> rfl
      · simp [convert_to_ptif, hrc]

/-- Witness for the hypothesis of C1's amended theorem. -/
theorem vips_invocation_sequences_by_script_witness :
    (convert_to_ptif convertEnvVipsFails "b.pdf" "b.ptif").vipsInvocations =
      [vips_tiffsave_cmd "b.pdf" "b.ptif"] :=
  vips_invocation_sequences_by_script.2.2.2.2.2.2.2 convertEnvVipsFails
    "b.pdf" "b.ptif" rfl

/-! ## C9: get_pdf_page_count -/

/-- C9 counterexample.  When pdfinfo succeeds and reports `Pages: 0`, the
function returns 0, which is not a positive integer. -/
theorem get_pdf_page_count_nonpositive :
    get_pdf_page_count (Except.ok (0, ["Pages: 0"])) = 0 ∧
    decide (0 < get_pdf_page_count (Except.ok (0, ["Pages: 0"]))) = false := by
  decide

/-- C9 as amended.  `get_pdf_page_count` returns the integer parsed from
the first `Pages:` line when pdfinfo exits 0 and the line parses, and 1
when the command raises, exits nonzero, has no `Pages:` line, or the line
fails to parse; the result is positive provided any parsed page count is
positive. -/
theorem get_pdf_page_count_spec :
    (get_pdf_page_count (Except.error ()) = 1) ∧
    (∀ (rc : Int) (lines : List String), rc ≠ 0 →
       get_pdf_page_count (Except.ok (rc, lines)) = 1) ∧
    (∀ (rc : Int) (lines : List String),
       lines.find? (fun l => py_startswith l "Pages:") = none →
       get_pdf_page_count (Except.ok (rc, lines)) = 1) ∧
    (∀ (lines : List String) (line : String) (n : Int),
       lines.find? (fun l => py_startswith l "Pages:") = some line →
       pages_from_line line = some n →
       get_pdf_page_count (Except.ok (0, lines)) = n) ∧
    (∀ (lines : List String) (line : String),
       lines.find? (fun l => py_startswith l "Pages:") = some line →
       pages_from_line line = none →
       get_pdf_page_count (Except.ok (0, lines)) = 1) ∧
    (∀ (rc : Int) (lines : List String),
       (∀ (line : String) (n : Int),
          lines.find? (fun l => py_startswith l "Pages:") = some line →
          pages_from_line line = some n → 0 < n) →
       0 < get_pdf_page_count (Except.ok (rc, lines))) := by
  refine ⟨rfl, ?_, ?_, ?_, ?_, ?_⟩
  · intro rc lines h
    simp [get_pdf_page_count, h]
  · intro rc lines h
    by_cases hrc : rc = 0 <;> simp [get_pdf_page_count, hrc, h]
  · intro lines line n h1 h2
    simp [get_pdf_page_count, h1, h2]
  · intro lines line h1 h2
    simp [get_pdf_page_count, h1, h2]
  · intro rc lines h
    by_cases hrc : rc = 0
    · subst hrc
      cases hf : lines.find? (fun l => py_startswith l "Pages:") with
      | none => simp [get_pdf_page_count, hf]
      | some line =>
        cases hp : pages_from_line line with
        | none => simp [get_pdf_page_count, hf, hp]
        | some n =>
          have := h line n hf hp
          simp [get_pdf_page_count, hf, hp]
          omega
    · simp [get_pdf_page_count, hrc]

/-- Witness for C9's amended theorem: a two-line pdfinfo output whose
`Pages:` line reports 7. -/
theorem get_pdf_page_count_spec_witness :
    get_pdf_page_count (Except.ok (0, ["Producer: x", "Pages: 7"])) = 7 :=
  get_pdf_page_count_spec.2.2.2.1 ["Producer: x", "Pages: 7"] "Pages: 7" 7
    (by decide) (by decide)

/-! ## C10: the page cap of create_multipage_pdf_ptif_files -/

/-- C10.  Every page of a PDF with at most 20 pages is processed; only a
PDF with more than 20 pages is capped at its first 10 pages; in
particular a PDF with 11 to 20 pages has all pages processed. -/
theorem multipage_page_cap (pc : Int) :
    (pc ≤ 20 → processed_pages pc = pdf_pages pc) ∧
    (20 < pc → processed_pages pc = pdf_pages 10) ∧
    (11 ≤ pc → pc ≤ 20 → processed_pages pc = pdf_pages pc) := by
  refine ⟨fun h => ?_, fun h => ?_, fun h1 h2 => ?_⟩
  · unfold processed_pages max_pages_to_process
    rw [if_neg (by omega)]
  · unfold processed_pages max_pages_to_process
    rw [if_pos h, min_eq_right (by omega)]
  · unfold processed_pages max_pages_to_process
    rw [if_neg (by omega)]

/-- Witness for C10's theorem at 15 and 25 pages. -/
theorem multipage_page_cap_witness :
    processed_pages 15 = pdf_pages 15 ∧ processed_pages 25 = pdf_pages 10 :=
  ⟨(multipage_page_cap 15).2.2 (by decide) (by decide),
   (multipage_page_cap 25).2.1 (by decide)⟩

/-! ## C4: the batch loop of fix_ptif_status -/

theorem FixTally.add_zero (a : FixTally) : a.add zeroFixTally = a := by
  cases a
  simp [FixTally.add, zeroFixTally]

theorem FixTally.zero_add (a : FixTally) : zeroFixTally.add a = a := by
  cases a
  simp [FixTally.add, zeroFixTally]

theorem FixTally.add_assoc (a b c : FixTally) :
    (a.add b).add c = a.add (b.add c) := by
  cases a
  cases b
  cases c
  simp [FixTally.add, Nat.add_assoc]

theorem fix_tallies_foldl_from (a : FixTally) (l : List FixRecord) :
    l.foldl (fun acc r => acc.add (fix_record_step r).1) a =
      a.add (fix_tallies l) := by
  induction l generalizing a with
  | nil => simp [fix_tallies, FixTally.add_zero]
  | cons x xs ih =>
    show xs.foldl _ (a.add (fix_record_step x).1) = _
    rw [ih]
    have hx : fix_tallies (x :: xs) =
        ((fix_record_step x).1).add (fix_tallies xs) := by
      show xs.foldl _ (zeroFixTally.add (fix_record_step x).1) = _
      rw [ih, FixTally.zero_add]
    rw [hx, FixTally.add_assoc]

theorem fix_prints_foldl_from (a : List String) (l : List FixRecord) :
    l.foldl (fun acc r => acc ++ (fix_record_step r).2) a =
      a ++ fix_prints l := by
  induction l generalizing a with
  | nil => simp [fix_prints]
  | cons x xs ih =>
    show xs.foldl _ (a ++ (fix_record_step x).2) = _
    rw [ih]
    have hx : fix_prints (x :: xs) =
        (fix_record_step x).2 ++ fix_prints xs := by
      show xs.foldl _ ([] ++ (fix_record_step x).2) = _
      rw [ih]
      simp
    rw [hx, List.append_assoc]

/-- C4 counterexample.  A run over one record whose processing raises and
a run over one record with media files disabled print the same end
summary, although the first run had one failure and the second none: the
summary of `fix_ptif_file_status` reports no failure tally. -/
theorem fix_summary_reports_no_failures :
    (fix_ptif_file_status [recRaising]).1 =
      (fix_ptif_file_status [recNoMediaAttr]).1 ∧
    fix_failures [recRaising] = 1 ∧
    fix_failures [recNoMediaAttr] = 0 := by
  decide

/-- C4 as amended.  In the batch loop of `fix_ptif_file_status` an
exception is caught inside the loop, printed once, never retried, and
iteration continues: counters and diagnostics are accumulated over the
records before and after a failure alike, a raising record contributes
only its error message, and the end summary reports the record total and
the three success counters (but no failure tally). -/
theorem fix_run_catches_and_continues :
    (∀ xs ys : List FixRecord,
       fix_tallies (xs ++ ys) = (fix_tallies xs).add (fix_tallies ys)) ∧
    (∀ xs ys : List FixRecord,
       fix_prints (xs ++ ys) = fix_prints xs ++ fix_prints ys) ∧
    (∀ records : List FixRecord,
       fix_prints records =
         (records.map fun r => (fix_record_step r).2).flatten) ∧
    (∀ r : FixRecord, r.getRaises = true →
       fix_record_step r = (zeroFixTally, ["Error processing record"])) ∧
    (∀ records : List FixRecord,
       (fix_ptif_file_status records).1 =
         ⟨records.length, (fix_tallies records).withMedia,
          (fix_tallies records).withPtif, (fix_tallies records).fixed⟩) := by
  refine ⟨?_, ?_, ?_, ?_, ?_⟩
  · intro xs ys
    show (xs ++ ys).foldl _ zeroFixTally = _
    rw [List.foldl_append, fix_tallies_foldl_from]
    rfl
  · intro xs ys
    show (xs ++ ys).foldl _ [] = _
    rw [List.foldl_append, fix_prints_foldl_from]
    rfl
  · intro records
    induction records with
    | nil => rfl
    | cons r rs ih =>
      have h : fix_prints (r :: rs) =
          (fix_record_step r).2 ++ fix_prints rs := by
        show rs.foldl _ ([] ++ (fix_record_step r).2) = _
        rw [fix_prints_foldl_from]
        simp
      rw [h, ih]
      simp
  · intro r h
    simp [fix_record_step, h]
  · intro records
    rfl

/-- Witness for the hypothesis of C4's amended theorem. -/
theorem fix_run_catches_and_continues_witness :
    fix_record_step recRaising = (zeroFixTally, ["Error processing record"]) :=
  fix_run_catches_and_continues.2.2.2.1 recRaising rfl

/-! ## C2: the sharded PTIF path layouts -/

/-- C2 counterexample.  add_ptif_to_manifest.py probes
`images/public/20/6_/_` for record `216`: the first directory segment of
this probed PTIF path is `20`, not the first two characters `21` of the
record identifier, so not every PTIF path the scripts look at follows the
sharded-by-identifier layout. -/
theorem add_ptif_probes_non_sharded_dir :
    (add_ptif_shard_guesses.all fun g =>
       add_ptif_record_ids.all fun rid => g == py_slice rid 0 2) = false ∧
    add_ptif_probed_dirs "images/public" =
      ["images/public/21/6_/_", "images/public/20/6_/_"] ∧
    sharded_layout_dir "images/public" "216" = "images/public/21/6_/_" := by
  refine ⟨by decide, by decide, by decide⟩

/-- C2 as amended.  regenerate_pdf_ptif.py writes PTIFs at
`<storage>/public/<first two id chars>/<id chars 3-4>/_/<name>`;
add_ptif_to_manifest.py probes exactly two hard-coded directories for its
record `216`, of which the first matches the underscore-padded sharded
layout for that identifier and the second replaces the first segment by
the guess `20`. -/
theorem ptif_path_layouts :
    (∀ sp rid name,
       regenerate_ptif_output_path sp rid name =
         sp ++ "/public/" ++ py_slice rid 0 2 ++ "/" ++ py_slice rid 2 4 ++
           "/_/" ++ name) ∧
    (∀ imagesDir,
       add_ptif_probed_dirs imagesDir =
         [add_ptif_dir_pattern imagesDir "21",
          add_ptif_dir_pattern imagesDir "20"]) ∧
    (∀ imagesDir,
       add_ptif_dir_pattern imagesDir "21" =
         sharded_layout_dir imagesDir "216") ∧
    (∀ imagesDir,
       add_ptif_dir_pattern imagesDir "20" =
         imagesDir ++ "/" ++ "20" ++ "/" ++
           underscore_pad2 (py_drop "216" 2) ++ "/_") := by
  refine ⟨fun sp rid name => rfl, fun d => rfl, ?_, ?_⟩
  · intro imagesDir
    unfold add_ptif_dir_pattern sharded_layout_dir
    simp only [String.append_assoc]
    rfl
  · intro imagesDir
    unfold add_ptif_dir_pattern
    simp only [String.append_assoc]
    rfl

/-! ## C8: check_pdf_files is read-only -/

theorem check_pdf_file_world (w : CheckWorld) (r : CheckRecord)
    (filename : String) : (check_pdf_file w r filename).1 = w := by
  unfold check_pdf_file
  dsimp only []
  cases h : find_media r.mediaFiles (filename ++ ".ptif") with
  | none => rfl
  | some entry =>
    dsimp only []
    cases hf : entry.fileUri with
    | none => rfl
    | some uri =>
      dsimp only []
      split <;> rfl

theorem check_files_fold_world (r : CheckRecord) (files : List String) :
    ∀ (w : CheckWorld) (s : CheckStats) (p : List String),
      (files.foldl
        (fun acc filename =>
          if py_endswith (py_lower filename) ".pdf" then
            let step := check_pdf_file acc.1 r filename
            (step.1, acc.2.1.add step.2.1, acc.2.2 ++ step.2.2)
          else acc)
        (w, s, p)).1 = w := by
  induction files with
  | nil => intro w s p; rfl
  | cons f fs ih =>
    intro w s p
    rw [List.foldl_cons]
    by_cases h : py_endswith (py_lower f) ".pdf" = true
    · simp only [h, if_true]
      exact (ih _ _ _).trans (check_pdf_file_world w r f)
    · simp only [h, if_false, Bool.false_eq_true]
      exact ih w s p

theorem check_record_world (w : CheckWorld) (r : CheckRecord) :
    (check_record w r).1 = w := by
  unfold check_record
  split
  · rfl
  · split
    · rfl
    · exact check_files_fold_world r r.files w _ []

theorem check_records_fold_world (records : List CheckRecord) :
    ∀ (w : CheckWorld) (s : CheckStats) (p : List String),
      (records.foldl
        (fun acc r =>
          let step := check_record acc.1 r
          (step.1, acc.2.1.add step.2.1, acc.2.2 ++ step.2.2))
        (w, s, p)).1 = w := by
  induction records with
  | nil => intro w s p; rfl
  | cons r rs ih =>
    intro w s p
    rw [List.foldl_cons]
    exact (ih _ _ _).trans (check_record_world w r)

/-- C8.  `check_pdf_files` is read-only: the world (records and disk) it
returns is the one it was given, and a PTIF that is referenced in record
metadata but missing on disk only produces a printed warning. -/
theorem check_pdf_files_read_only :
    (∀ w : CheckWorld, (check_pdf_files w).1 = w) ∧
    (∀ (w : CheckWorld) (r : CheckRecord) (filename : String)
       (entry : MediaEntry) (uri : String),
       find_media r.mediaFiles (filename ++ ".ptif") = some entry →
       entry.fileUri = some uri →
       disk_exists w.disk uri = false →
       (check_pdf_file w r filename).1 = w ∧
       (check_pdf_file w r filename).2.2 =
         ["WARNING: PTIF file does not exist on disk!"]) := by
  constructor
  · intro w
    unfold check_pdf_files
    exact check_records_fold_world w.records w zeroCheckStats []
  · intro w r filename entry uri h1 h2 h3
    constructor <;> simp [check_pdf_file, h1, h2, h3]

/-- Witness for C8's theorem: a record referencing `doc.pdf.ptif` whose
uri is absent from an empty disk. -/
theorem check_pdf_files_read_only_witness :
    (check_pdf_files checkWorldEx).1 = checkWorldEx ∧
    (check_pdf_file checkWorldEx checkRecEx "doc.pdf").2.2 =
      ["WARNING: PTIF file does not exist on disk!"] :=
  ⟨check_pdf_files_read_only.1 checkWorldEx,
   (check_pdf_files_read_only.2 checkWorldEx checkRecEx "doc.pdf"
      ⟨"doc.pdf.ptif", some [("status", "finished")], some "/data/doc.ptif"⟩
      "/data/doc.ptif" (by decide) rfl (by decide)).2⟩

/-! ## C7: create_manifest builds one canvas per readable PTIF -/

theorem filterMap_dims_map (g : PtifFile → Nat → Nat → JVal)
    (files : List PtifFile) :
    files.filterMap (fun f => f.dims.map fun wh => g f wh.1 wh.2) =
      (files.filterMap (fun f => f.dims.map fun wh => (f, wh.1, wh.2))).map
        fun x => g x.1 x.2.1 x.2.2 := by
  induction files with
  | nil => rfl
  | cons f fs ih =>
    cases hd : f.dims with
    | none => simp [List.filterMap_cons, hd, ih]
    | some wh => simp [List.filterMap_cons, hd, ih]

/-- C7.  `create_manifest` returns a manifest with exactly one sequence;
its canvas list has exactly one canvas per input PTIF file whose
dimensions the image library could read, in input order; and each canvas
carries the width and height read from its file. -/
theorem create_manifest_one_canvas_per_readable_file :
    (∀ rid date files,
       (manifest_sequences (create_manifest rid date files)).map
         List.length = some 1) ∧
    (∀ rid date files,
       (manifest_sequences (create_manifest rid date files)).bind
         (fun seqs => seqs.head?.bind sequence_canvases) =
         some (manifest_canvases rid files)) ∧
    (∀ rid files,
       manifest_canvases rid files =
         (readable_files files).map fun x =>
           canvas_for rid x.1 x.2.1 x.2.2) ∧
    (∀ rid files,
       (manifest_canvases rid files).length =
         (readable_files files).length) ∧
    (∀ rid f w h,
       canvas_dims (canvas_for rid f w h) = some ((w : Int), (h : Int))) := by
  refine ⟨fun rid date files => rfl, fun rid date files => rfl, ?_, ?_, ?_⟩
  · intro rid files
    exact filterMap_dims_map (fun f w h => canvas_for rid f w h) files
  · intro rid files
    rw [show manifest_canvases rid files =
          (readable_files files).map fun x => canvas_for rid x.1 x.2.1 x.2.2
        from filterMap_dims_map (fun f w h => canvas_for rid f w h) files]
    exact List.length_map _ _
  · intro rid f w h
    rfl

/-! ## C5: the manifest smoke test compares values, not only keys -/

theorem service_checks_factor (s : JVal) :
    service_checks s = service_checks_obs (serviceObs s) := rfl

theorem resource_checks_factor (r : List (String × JVal)) :
    resource_checks r = resource_checks_obs (resourceObs r) := by
  unfold resource_checks resource_checks_obs resourceObs
  dsimp only []
  rcases h : jlookup r "service" with _ | v <;> rfl

theorem image_checks_factor (i : List (String × JVal)) :
    image_checks i = image_checks_obs (imageObs i) := by
  unfold image_checks image_checks_obs imageObs
  dsimp only []
  rcases ht : jlookup i "@type" with _ | (s | n | l | o) <;>
    rcases hr : jlookup i "resource" with _ | (s2 | n2 | l2 | o2) <;>
    first
      | rfl
      | simp [resource_checks_factor]

theorem canvas_checks_factor (c : List (String × JVal)) :
    canvas_checks c = canvas_checks_obs (canvasObs c) := by
  unfold canvas_checks canvas_checks_obs canvasObs
  dsimp only []
  rcases ht : jlookup c "@type" with _ | (s | n | l | o) <;>
    rcases hi : jlookup c "images" with _ | (s2 | n2 | xs | o2) <;>
    first
      | rfl
      | (rcases hh : xs.head? with _ | (s3 | n3 | l3 | img) <;>
          first
            | rfl
            | simp [hh, image_checks_factor])

theorem sequence_checks_factor (s : List (String × JVal)) :
    sequence_checks s = sequence_checks_obs (sequenceObs s) := by
  unfold sequence_checks sequence_checks_obs sequenceObs
  dsimp only []
  rcases hc : jlookup s "canvases" with _ | (s2 | n2 | xs | o2) <;>
    first
      | rfl
      | (rcases hh : xs.head? with _ | (s3 | n3 | l3 | cv) <;>
          first
            | rfl
            | simp [hh, canvas_checks_factor])

theorem test_manifest_factor (status : Nat) (m : List (String × JVal)) :
    test_manifest_outcome status m =
      manifest_outcome_of_obs status (manifestObs m) := by
  unfold test_manifest_outcome manifest_outcome_of_obs manifestObs
  dsimp only []
  rcases ht : jlookup m "@type" with _ | (s | n | l | o) <;>
    rcases hs : jlookup m "sequences" with _ | (s2 | n2 | xs | o2) <;>
    first
      | rfl
      | (rcases hh : xs.head? with _ | (s3 | n3 | l3 | sq) <;>
          first
            | rfl
            | simp [hh, sequence_checks_factor])

/-- C5 counterexample.  Two responses with the same status code and the
same keys present at every nesting level (only the string value of the
top-level `@type` differs) get different pass/fail outcomes: the outcome
is not a function of the status code and key presence alone. -/
theorem manifest_outcome_not_determined_by_keys :
    jobj_key_paths manifestPassing = jobj_key_paths manifestRetyped ∧
    test_manifest_outcome 200 manifestPassing = true ∧
    test_manifest_outcome 200 manifestRetyped = false := by
  refine ⟨by decide, by decide, by decide⟩

/-- C5 as amended.  The outcome of `test_manifest_endpoint` is a function
of the status code and of the observations the test makes — presence of
each checked key, the string values of the three compared `@type` fields,
and the shape and nonemptiness of the `sequences`, `canvases` and
`images` containers: two responses agreeing on these agree on the
outcome.  The iipserver smoke test passes on any status code at all. -/
theorem manifest_test_outcome_observational :
    (∀ (status : Nat) (m : List (String × JVal)),
       test_manifest_outcome status m =
         manifest_outcome_of_obs status (manifestObs m)) ∧
    (∀ (s1 s2 : Nat) (m1 m2 : List (String × JVal)),
       s1 = s2 → manifestObs m1 = manifestObs m2 →
       test_manifest_outcome s1 m1 = test_manifest_outcome s2 m2) ∧
    (∀ s : Nat, test_iipserver_outcome (Except.ok s) = (s != 0)) := by
  refine ⟨test_manifest_factor, ?_, fun s => rfl⟩
  intro s1 s2 m1 m2 hs hobs
  subst hs
  rw [test_manifest_factor, test_manifest_factor, hobs]

/-- Witness for C5's amended theorem: two manifests differing only in the
uncompared `label` value have equal observations and equal outcomes. -/
theorem manifest_test_outcome_observational_witness :
    test_manifest_outcome 200 manifestPassing =
      test_manifest_outcome 200 manifestAltLabel :=
  manifest_test_outcome_observational.2.1 200 200 manifestPassing
    manifestAltLabel rfl (by decide)

end ZenodoScripts
